import Mathlib

/-!
Verification of the celerymon event-to-metric reduction engine.

The definitions below are a shallow embedding of `src/__main__.py`:
the task-lifecycle classifier `task_handler`, the heartbeat tracker
`worker_heartbeat`, and one cycle of the `Submitter` aggregation loop.
Timestamps (Python floats, seconds since epoch) are modelled as exact
integers — the classifier only subtracts and compares timestamps, so the
embedding is parametric in the numeric type and integers keep every
definition kernel-executable; the `ExpiringDict` store is an insertion-ordered
association list (the claims below never exercise capacity or age
eviction, so the dict-like `get`/`put`/`erase` behaviour is all that is
needed); a raised-and-caught Python exception is modelled as the third
component of `taskBody`'s result.
-/

/-- One lifecycle record kept in `tuids`, mirroring the Python dict
`⟨'name': name, 'received': event['timestamp'], 'started': 0⟩` built at
line 83 of the source (fields keep the Python keys). -/
structure TaskRecord where
  name : String
  received : ℤ
  started : ℤ
deriving DecidableEq, Repr

/-- A raw lifecycle event. `type` is always present (the dispatcher routed
on it); the other payload fields may be missing, in which case the Python
dict access `event[...]` raises `KeyError`. -/
structure Event where
  type : String
  uuid : Option String
  name : Option String
  timestamp : Option ℤ
  hostname : Option String
deriving DecidableEq, Repr

/-- The `tuids` store: an insertion-ordered mapping from task identifier
to `TaskRecord`. -/
abbrev Store := List (String × TaskRecord)

/-- Dict lookup `tuids[uuid]` / membership `uuid in tuids`. -/
def Store.get : Store → String → Option TaskRecord
  | [], _ => none
  | (k', v) :: rest, k => if k' = k then some v else Store.get rest k

/-- Dict write `tuids.update(⟨uuid: record⟩)`: overwrite in place if the
key is present, else append (dict insertion order). -/
def Store.put : Store → String → TaskRecord → Store
  | [], k, v => [(k, v)]
  | (k', v') :: rest, k, v =>
      if k' = k then (k, v) :: rest else (k', v') :: Store.put rest k v

/-- Dict deletion `del tuids[uuid]` (keys are unique in a dict, so removing
every binding for the key is the same operation). -/
def Store.erase (s : Store) (k : String) : Store :=
  s.filter (fun p => p.1 ≠ k)

/-- A task metric point, `TaskStats(task=name, event=cname, duration=...)`. -/
structure TaskMetric where
  task : String
  event : String
  duration : ℤ
deriving DecidableEq, Repr

/-- A queue metric point, `QueueStats(queue=name, count=count)`. -/
structure QueueMetric where
  queue : String
  count : ℕ
deriving DecidableEq, Repr

/-- A worker metric point, `WorkerStats(count=len(heartbeats))`. -/
structure WorkerMetric where
  count : ℕ
deriving DecidableEq, Repr

/-- `event['type'][5:]`: strip the `task-` prefix to get the kind. -/
def kindOf (ty : String) : String := ty.drop 5

/-- The list literal of line 100 of the source:
`['succeeded', 'failed', 'retried', 'rejected', 'revoked']`. -/
def terminalKinds : List String :=
  ["succeeded", "failed", "retried", "rejected", "revoked"]

/-- Python `duration or 0.`: `None` and `0.0` are falsy and give `0.0`;
any other float is returned unchanged. -/
def orZero : Option ℤ → ℤ
  | none => 0
  | some d => if d = 0 then 0 else d

/-- Control flow out of the `if cname == 'received' / elif ... / else`
branch of `task_handler` (source lines 81–94): an early `return`, a raised
exception (store as mutated so far), or fall-through carrying the bound
`name` and `duration` locals. -/
inductive BranchResult where
  | early (tuids : Store)
  | raised (tuids : Store) (msg : String)
  | cont (tuids : Store) (name : String) (duration : Option ℤ)
deriving DecidableEq, Repr

/-- Source lines 81–94: the per-kind branch of `task_handler`.
* `received`: read `event['name']` and `event['timestamp']` (each raises
  `KeyError` if absent, before the store is touched), then
  `tuids.update(⟨uuid: ⟨name, received: ts, started: 0⟩⟩)`.
* `started`: early return if `uuid not in tuids`; read the record's name;
  `tuids[uuid]['started'] = event['timestamp']` (raises before mutating if
  the timestamp is absent); `duration = started - received`.
* anything else: early return if `uuid not in tuids`; name from record. -/
def taskBranch (event : Event) (uuid : String) (cname : String)
    (tuids : Store) : BranchResult :=
  if cname = "received" then
    match event.name with
    | none => .raised tuids "KeyError: name"
    | some name =>
      match event.timestamp with
      | none => .raised tuids "KeyError: timestamp"
      | some ts => .cont (tuids.put uuid ⟨name, ts, 0⟩) name none
  else if cname = "started" then
    match tuids.get uuid with
    | none => .early tuids
    | some rec =>
      match event.timestamp with
      | none => .raised tuids "KeyError: timestamp"
      | some ts =>
          .cont (tuids.put uuid { rec with started := ts }) rec.name
            (some (ts - rec.received))
  else
    match tuids.get uuid with
    | none => .early tuids
    | some rec => .cont tuids rec.name none

/-- The body of `task_handler` (source lines 77–111), before the enclosing
`try`/`except`. Result: the store as mutated so far, the metric emitted by
`TaskStats(...)` (the last statement, so `none` whenever an exception was
raised or an early `return` taken), and the raised exception if any.
After the branch: `if not name: return` (the record was already mutated);
then, for a terminal kind, `if tuids[uuid]['started']:` recomputes the
duration as `event['timestamp'] - started` (the timestamp read raises
before `del` if absent) and `del tuids[uuid]` runs in every terminal case. -/
def taskBody (event : Event) (tuids0 : Store) :
    Store × Option TaskMetric × Option String :=
  match event.uuid with
  | none => (tuids0, none, some "KeyError: uuid")
  | some uuid =>
    let cname := kindOf event.type
    match taskBranch event uuid cname tuids0 with
    | .early tuids => (tuids, none, none)
    | .raised tuids msg => (tuids, none, some msg)
    | .cont tuids name duration =>
      if name = "" then (tuids, none, none)
      else if cname ∈ terminalKinds then
        match tuids.get uuid with
        | none => (tuids, none, some "KeyError: uuid not in tuids")
        | some rec =>
          if rec.started ≠ 0 then
            match event.timestamp with
            | none => (tuids, none, some "KeyError: timestamp")
            | some ts =>
                (tuids.erase uuid,
                 some ⟨name, cname, orZero (some (ts - rec.started))⟩, none)
          else
            (tuids.erase uuid, some ⟨name, cname, orZero duration⟩, none)
      else (tuids, some ⟨name, cname, orZero duration⟩, none)

/-- `task_handler` as its caller sees it: the `try`/`except Exception`
wrapper logs any raised exception and swallows it, so the caller always
receives the (possibly mutated) store and the metric emitted, if any. -/
def task_handler (event : Event) (tuids : Store) : Store × Option TaskMetric :=
  ((taskBody event tuids).1, (taskBody event tuids).2.1)

/-- Process a list of lifecycle events in order through `task_handler`,
collecting every emitted metric. -/
def processEvents (events : List Event) (tuids : Store) :
    Store × List TaskMetric :=
  events.foldl
    (fun acc e =>
      match task_handler e acc.1 with
      | (t, some metric) => (t, acc.2 ++ [metric])
      | (t, none) => (t, acc.2))
    (tuids, [])

/-- `worker_heartbeat` (source lines 70–72): `heartbeats.add(event['hostname'])`.
A missing hostname raises `KeyError` in the spawned greenlet, leaving the
set unchanged. -/
def worker_heartbeat (event : Event) (heartbeats : Finset String) :
    Finset String :=
  match event.hostname with
  | some hostname => insert hostname heartbeats
  | none => heartbeats

/-- A `worker-heartbeat` event carrying only a hostname. -/
def heartbeatEvent (h : String) : Event :=
  ⟨"worker-heartbeat", none, none, none, some h⟩

/-- Fold a list of heartbeat hostnames (as heartbeat events) into the set. -/
def recordHeartbeats (hs : List String) (heartbeats : Finset String) :
    Finset String :=
  hs.foldl (fun acc h => worker_heartbeat (heartbeatEvent h) acc) heartbeats

/-- One cycle of `Submitter._run` (source lines 138–158) after the sleep:
emit one `QueueStats` per `(name, count)` pair from `redis.itercounts()`
(zero counts included), emit `WorkerStats(count=len(heartbeats))`, then
rebind `heartbeats = set()`. -/
def submitter_cycle (queueCounts : List (String × ℕ))
    (heartbeats : Finset String) :
    List QueueMetric × WorkerMetric × Finset String :=
  (queueCounts.map (fun nc => ⟨nc.1, nc.2⟩),
   ⟨heartbeats.card⟩,
   (∅ : Finset String))

/-- `received` event as delivered by celery: type, uuid, name, timestamp. -/
def receivedEvent (u nm : String) (ts : ℤ) : Event :=
  ⟨"task-received", some u, some nm, some ts, none⟩

/-- `started` event: type, uuid, timestamp (no name in the payload). -/
def startedEvent (u : String) (ts : ℤ) : Event :=
  ⟨"task-started", some u, none, some ts, none⟩

/-- `succeeded` event: type, uuid, timestamp. -/
def succeededEvent (u : String) (ts : ℤ) : Event :=
  ⟨"task-succeeded", some u, none, some ts, none⟩

/-- `failed` event: type, uuid, timestamp. -/
def failedEvent (u : String) (ts : ℤ) : Event :=
  ⟨"task-failed", some u, none, some ts, none⟩

/-- `sent` event: type, uuid, name, timestamp. -/
def sentEvent (u nm : String) (ts : ℤ) : Event :=
  ⟨"task-sent", some u, some nm, some ts, none⟩

/-! ### Small computation lemmas about the embedding -/

@[simp] theorem kindOf_received : kindOf "task-received" = "received" := rfl

@[simp] theorem kindOf_started : kindOf "task-started" = "started" := rfl

@[simp] theorem kindOf_succeeded : kindOf "task-succeeded" = "succeeded" := rfl

@[simp] theorem kindOf_failed : kindOf "task-failed" = "failed" := rfl

@[simp] theorem kindOf_retried : kindOf "task-retried" = "retried" := rfl

@[simp] theorem kindOf_rejected : kindOf "task-rejected" = "rejected" := rfl

@[simp] theorem kindOf_revoked : kindOf "task-revoked" = "revoked" := rfl

@[simp] theorem kindOf_sent : kindOf "task-sent" = "sent" := rfl

@[simp] theorem orZero_none : orZero none = 0 := rfl

@[simp] theorem orZero_some (d : ℤ) : orZero (some d) = d := by
  by_cases h : d = 0 <;> simp [orZero, h]

@[simp] theorem received_not_terminal : "received" ∉ terminalKinds := by decide

@[simp] theorem started_not_terminal : "started" ∉ terminalKinds := by decide

@[simp] theorem sent_not_terminal : "sent" ∉ terminalKinds := by decide

theorem Store.get_put_self (s : Store) (k : String) (v : TaskRecord) :
    (s.put k v).get k = some v := by
  induction s with
  | nil => simp [Store.put, Store.get]
  | cons hd tl ih =>
    obtain ⟨k', v'⟩ := hd
    by_cases h : k' = k
    · subst h; simp [Store.put, Store.get]
    · simp [Store.put, Store.get, h, ih]

theorem Store.get_erase_self (s : Store) (k : String) :
    (s.erase k).get k = none := by
  induction s with
  | nil => simp [Store.erase, Store.get]
  | cons hd tl ih =>
    obtain ⟨k', v'⟩ := hd
    by_cases h : k' = k
    · simpa [Store.erase, List.filter_cons, h] using ih
    · simpa [Store.erase, List.filter_cons, Store.get, h] using ih

-- The end-to-end scenario of the spec: received(A,"add",0), started(A,5),
-- failed(A,9) gives metrics (add,received,0), (add,started,5), (add,failed,4)
-- and an empty store.
theorem endToEnd_failed_scenario :
    processEvents
      [receivedEvent "A" "add" 0, startedEvent "A" 5, failedEvent "A" 9]
      [] =
    ([], [⟨"add", "received", 0⟩, ⟨"add", "started", 5⟩, ⟨"add", "failed", 4⟩]) := by
  rfl

/-! ### Behaviour lemmas shared between claims -/

/-- A `started` event whose identifier is absent from the store takes the
early `return` at line 85/86 of the source: nothing mutated, nothing
emitted, nothing raised. -/
theorem taskBody_started_absent (e : Event) (s : Store) (u : String)
    (hu : e.uuid = some u) (hk : kindOf e.type = "started")
    (habs : s.get u = none) :
    taskBody e s = (s, none, none) := by
  simp [taskBody, taskBranch, hu, hk, habs]

/-- An event whose kind is neither `received` nor `started` and whose
identifier is absent from the store takes the early `return` at line 92/93
of the source: nothing mutated, nothing emitted, nothing raised. -/
theorem taskBody_else_absent (e : Event) (s : Store) (u : String)
    (hu : e.uuid = some u) (hk1 : kindOf e.type ≠ "received")
    (hk2 : kindOf e.type ≠ "started") (habs : s.get u = none) :
    taskBody e s = (s, none, none) := by
  simp [taskBody, taskBranch, hu, hk1, hk2, habs]

/-- A terminal event whose identifier is present with a non-empty name and
which carries a timestamp always reaches `del tuids[uuid]`. -/
theorem taskBody_terminal_present_erases (e : Event) (s : Store) (u : String)
    (rec : TaskRecord) (ts : ℤ)
    (hu : e.uuid = some u) (hk1 : kindOf e.type ≠ "received")
    (hk2 : kindOf e.type ≠ "started") (hkt : kindOf e.type ∈ terminalKinds)
    (hts : e.timestamp = some ts)
    (hrec : s.get u = some rec) (hnm : rec.name ≠ "") :
    (taskBody e s).1 = s.erase u := by
  by_cases hst : rec.started = 0 <;>
    simp [taskBody, taskBranch, hu, hk1, hk2, hkt, hts, hrec, hnm, hst]

/-! ### Claims -/

/-- C10: for every `received` event whose name field is empty, the
classifier emits no metric, yet the record (with the empty name) has
already been inserted by the time the name check fires, so the store ends
up mutated even though the event is reported as dropped. -/
theorem c10_received_empty_name_inserts (u : String) (t : ℤ) (s : Store) :
    task_handler (receivedEvent u "" t) s = (s.put u ⟨"", t, 0⟩, none) ∧
    (s.put u ⟨"", t, 0⟩).get u = some ⟨"", t, 0⟩ := by
  constructor
  · simp [task_handler, taskBody, taskBranch, receivedEvent]
  · exact Store.get_put_self s u ⟨"", t, 0⟩

/-- C2: a `started` or terminal event whose identifier is not in the store
is dropped: zero metrics, zero store mutation, and no exception raised. -/
theorem c2_unknown_id_dropped (e : Event) (s : Store) (u : String)
    (hty : e.type ∈ ["task-started", "task-succeeded", "task-failed",
      "task-retried", "task-rejected", "task-revoked"])
    (hu : e.uuid = some u) (habs : s.get u = none) :
    taskBody e s = (s, none, none) ∧ task_handler e s = (s, none) := by
  have hbody : taskBody e s = (s, none, none) := by
    simp only [List.mem_cons, List.not_mem_nil, or_false] at hty
    rcases hty with h | h | h | h | h | h
    · exact taskBody_started_absent e s u hu (by rw [h]; rfl) habs
    all_goals
      exact taskBody_else_absent e s u hu (by rw [h]; decide) (by rw [h]; decide) habs
  exact ⟨hbody, by simp [task_handler, hbody]⟩

/-- C2 witness: `started(B,5)` with no prior `received(B,...)` on the empty
store is dropped without a metric, a mutation, or an exception. -/
theorem c2_unknown_id_dropped_witness :
    taskBody (startedEvent "B" 5) [] = ([], none, none) ∧
    task_handler (startedEvent "B" 5) [] = ([], none) :=
  c2_unknown_id_dropped (startedEvent "B" 5) [] "B" (by decide) rfl rfl

/-- C3 counterexample: a `sent` event for an identifier with no record is
NOT treated as informational — it falls into the unknown-identifier branch
and is dropped with no metric, even though its payload carries a name. -/
theorem c3_sent_unknown_counterexample :
    task_handler (sentEvent "X" "add" 1) [] = ([], none) := by
  rfl

/-- C3 amended: a `sent` event is handled by the catch-all branch: if the
identifier is absent the event is dropped (no metric, no store change); if
it is present the task name is taken from the stored record (never from
the event payload) and a metric with duration 0 is emitted, with no store
mutation; an empty record name drops the event. -/
theorem c3_sent_characterization (e : Event) (s : Store) (u : String)
    (hty : e.type = "task-sent") (hu : e.uuid = some u) :
    task_handler e s =
      match s.get u with
      | none => (s, none)
      | some rec =>
          if rec.name = "" then (s, none)
          else (s, some ⟨rec.name, "sent", 0⟩) := by
  cases hg : s.get u with
  | none =>
    simp [task_handler, taskBody, taskBranch, hu, hty, hg]
  | some rec =>
    by_cases hn : rec.name = "" <;>
      simp [task_handler, taskBody, taskBranch, hu, hty, hg, hn]

/-- C3 witness: a `sent` event for a stored record named `add` emits
`(add, sent, 0)` from the record (ignoring the payload name) and leaves
the store unchanged. -/
theorem c3_sent_characterization_witness :
    task_handler (sentEvent "X" "payload-name" 7) [("X", ⟨"add", 1, 0⟩)] =
      ([("X", ⟨"add", 1, 0⟩)], some ⟨"add", "sent", 0⟩) := by
  have h := c3_sent_characterization (sentEvent "X" "payload-name" 7)
    [("X", ⟨"add", 1, 0⟩)] "X" rfl rfl
  simpa [Store.get] using h

/-- C5 counterexample: a terminal event for an identifier present with an
empty-name record returns at the name check BEFORE `del tuids[uuid]`, so
the store still contains the entry afterwards. -/
theorem c5_terminal_empty_name_counterexample :
    task_handler (succeededEvent "U" 9) [("U", ⟨"", 3, 0⟩)] =
      ([("U", ⟨"", 3, 0⟩)], none) ∧
    Store.get [("U", ⟨"", 3, 0⟩)] "U" = some ⟨"", 3, 0⟩ := by
  constructor <;> rfl

/-- C5 amended: a terminal event whose identifier is present with a
non-empty record name and which carries a timestamp always deletes the
record: afterwards the store has no entry for that identifier. -/
theorem c5_terminal_deletes (e : Event) (s : Store) (u : String)
    (rec : TaskRecord) (ts : ℤ)
    (hty : e.type ∈ ["task-succeeded", "task-failed", "task-retried",
      "task-rejected", "task-revoked"])
    (hu : e.uuid = some u) (hts : e.timestamp = some ts)
    (hrec : s.get u = some rec) (hnm : rec.name ≠ "") :
    (task_handler e s).1 = s.erase u ∧
    ((task_handler e s).1).get u = none := by
  have hstore : (taskBody e s).1 = s.erase u := by
    simp only [List.mem_cons, List.not_mem_nil, or_false] at hty
    rcases hty with h | h | h | h | h
    all_goals
      exact taskBody_terminal_present_erases e s u rec ts hu
        (by rw [h]; decide) (by rw [h]; decide) (by rw [h]; decide)
        hts hrec hnm
  refine ⟨by simpa [task_handler] using hstore, ?_⟩
  have : (task_handler e s).1 = s.erase u := by simpa [task_handler] using hstore
  rw [this]
  exact Store.get_erase_self s u

/-- C5 witness: `succeeded(U,9)` against the record `⟨add, 1, 5⟩` erases
the entry; the lookup afterwards is `none`. -/
theorem c5_terminal_deletes_witness :
    (task_handler (succeededEvent "U" 9) [("U", ⟨"add", 1, 5⟩)]).1 =
      Store.erase [("U", ⟨"add", 1, 5⟩)] "U" ∧
    ((task_handler (succeededEvent "U" 9) [("U", ⟨"add", 1, 5⟩)]).1).get "U" =
      none :=
  c5_terminal_deletes (succeededEvent "U" 9) [("U", ⟨"add", 1, 5⟩)] "U"
    ⟨"add", 1, 5⟩ 9 (by decide) rfl rfl rfl (by decide)

/-- Whenever the body of `task_handler` raises, the raise happened before
the final `TaskStats(...)` statement, so no metric was emitted. -/
theorem taskBody_raised_no_metric (e : Event) (s : Store) :
    ((taskBody e s).2.2).isSome = true → (taskBody e s).2.1 = none := by
  obtain ⟨ty, u?, n?, t?, h?⟩ := e
  cases u? with
  | none => simp [taskBody]
  | some u =>
    simp only [taskBody]
    cases hbr : taskBranch ⟨ty, some u, n?, t?, h?⟩ u (kindOf ty) s with
    | early t' => simp [hbr]
    | raised t' msg => simp [hbr]
    | cont t' nm dur =>
      by_cases hnm : nm = ""
      · simp [hbr, hnm]
      · by_cases hterm : kindOf ty ∈ terminalKinds
        · cases hg : Store.get t' u with
          | none => simp [hbr, hnm, hterm, hg]
          | some rec =>
            by_cases hst : rec.started = 0
            · simp [hbr, hnm, hterm, hg, hst]
            · cases t? with
              | none => simp [hbr, hnm, hterm, hg, hst]
              | some ts => simp [hbr, hnm, hterm, hg, hst]
        · simp [hbr, hnm, hterm]

/-- C6: classification of a single event never propagates an exception:
whatever exception the body raises (missing `uuid`, `name` or `timestamp`
for any payload shape), the `try`/`except` boundary swallows it and the
caller receives the store as mutated so far and no metric — a total result
of the same shape as every other call. -/
theorem c6_exceptions_contained (e : Event) (s : Store)
    (hraised : ((taskBody e s).2.2).isSome = true) :
    task_handler e s = ((taskBody e s).1, none) := by
  have h := taskBody_raised_no_metric e s hraised
  simp [task_handler, h]

/-- C6 witness: a `received` event with no `uuid` key raises `KeyError`
inside the body; the handler still returns a normal result. -/
theorem c6_exceptions_contained_witness :
    ((taskBody ⟨"task-received", none, none, none, none⟩ []).2.2).isSome =
      true ∧
    task_handler ⟨"task-received", none, none, none, none⟩ [] = ([], none) :=
  ⟨rfl, c6_exceptions_contained ⟨"task-received", none, none, none, none⟩ []
    rfl⟩

/-- C1 counterexample: with `t0 = t1 = 0 ≤ t2 = 5` the `started` timestamp
collides with the `started: 0` sentinel, so the terminal branch sees
`tuids[uuid]['started']` as falsy and emits duration `0` instead of the
claimed `t2 - t1 = 5`. -/
theorem c1_lifecycle_counterexample :
    processEvents
      [receivedEvent "A" "add" 0, startedEvent "A" 0, succeededEvent "A" 5]
      [] =
      ([], [⟨"add", "received", 0⟩, ⟨"add", "started", 0⟩,
        ⟨"add", "succeeded", 0⟩]) ∧
    (5 : ℤ) - 0 ≠ 0 := by
  constructor
  · rfl
  · decide

/-- C1 amended: for a `received(U,t0) → started(U,t1) → succeeded(U,t2)`
sequence with `t0 ≤ t1 ≤ t2`, a non-empty task name, and `t1 ≠ 0` (so the
started timestamp is not the `0` sentinel), exactly three metrics are
emitted with durations `0`, `t1 - t0`, `t2 - t1`, and afterwards the store
contains no entry for `U`. -/
theorem c1_lifecycle_amended (u nm : String) (t0 t1 t2 : ℤ)
    (hnm : nm ≠ "") (ht1 : t1 ≠ 0) (h01 : t0 ≤ t1) (h12 : t1 ≤ t2) :
    processEvents
      [receivedEvent u nm t0, startedEvent u t1, succeededEvent u t2] [] =
      ([], [⟨nm, "received", 0⟩, ⟨nm, "started", t1 - t0⟩,
        ⟨nm, "succeeded", t2 - t1⟩]) ∧
    Store.get
      (processEvents
        [receivedEvent u nm t0, startedEvent u t1, succeededEvent u t2]
        []).1 u = none := by
  have step1 : task_handler (receivedEvent u nm t0) [] =
      ([(u, ⟨nm, t0, 0⟩)], some ⟨nm, "received", 0⟩) := by
    simp [task_handler, taskBody, taskBranch, receivedEvent, Store.put, hnm]
  have step2 : task_handler (startedEvent u t1) [(u, ⟨nm, t0, 0⟩)] =
      ([(u, ⟨nm, t0, t1⟩)], some ⟨nm, "started", t1 - t0⟩) := by
    simp [task_handler, taskBody, taskBranch, startedEvent, Store.get,
      Store.put, hnm]
  have step3 : task_handler (succeededEvent u t2) [(u, ⟨nm, t0, t1⟩)] =
      ([], some ⟨nm, "succeeded", t2 - t1⟩) := by
    simp [task_handler, taskBody, taskBranch, succeededEvent, Store.get,
      Store.erase, terminalKinds, hnm, ht1]
  have hall : processEvents
      [receivedEvent u nm t0, startedEvent u t1, succeededEvent u t2] [] =
      ([], [⟨nm, "received", 0⟩, ⟨nm, "started", t1 - t0⟩,
        ⟨nm, "succeeded", t2 - t1⟩]) := by
    simp [processEvents, step1, step2, step3]
  exact ⟨hall, by rw [hall]; rfl⟩

/-- C1 witness: the spec's own scenario shape with non-zero `t1`:
`received(A,add,0)`, `started(A,5)`, `succeeded(A,9)` gives durations
`0`, `5`, `4` and an empty store. -/
theorem c1_lifecycle_amended_witness :
    processEvents
      [receivedEvent "A" "add" 0, startedEvent "A" 5, succeededEvent "A" 9]
      [] =
      ([], [⟨"add", "received", 0⟩, ⟨"add", "started", 5 - 0⟩,
        ⟨"add", "succeeded", 9 - 5⟩]) ∧
    Store.get
      (processEvents
        [receivedEvent "A" "add" 0, startedEvent "A" 5,
          succeededEvent "A" 9] []).1 "A" = none :=
  c1_lifecycle_amended "A" "add" 0 5 9 (by decide) (by decide) (by decide)
    (by decide)

/-- Clock-consistency hypothesis: the event's timestamp is not earlier
than the timestamps already recorded for its identifier (no clock skew
between the workers that produced the events). -/
def tsConsistent (e : Event) (s : Store) : Prop :=
  ∀ u ts rec, e.uuid = some u → e.timestamp = some ts →
    s.get u = some rec →
      rec.received ≤ ts ∧ (rec.started ≠ 0 → rec.started ≤ ts)

/-- The event shapes for which the spec says no duration is computable:
`received` and `sent` events, and terminal events whose record has
`started` unset. -/
def noDurationCase (e : Event) (s : Store) : Prop :=
  kindOf e.type = "received" ∨ kindOf e.type = "sent" ∨
    (kindOf e.type ∈ terminalKinds ∧
      ∀ u rec, e.uuid = some u → s.get u = some rec → rec.started = 0)

/-- C4 counterexample: a `started` event whose timestamp (3) precedes the
recorded `received` timestamp (5) emits the NEGATIVE duration `-2`; the
claimed unconditional non-negativity fails. -/
theorem c4_negative_duration_counterexample :
    (task_handler (startedEvent "U" 3) [("U", ⟨"add", 5, 0⟩)]).2 =
      some ⟨"add", "started", -2⟩ ∧
    ¬ (0 : ℤ) ≤ -2 := by
  constructor
  · rfl
  · decide

/-- C4 amended: whenever a metric is emitted, its duration is non-negative
PROVIDED the event's timestamp is not earlier than the timestamps already
recorded for its identifier (the code performs bare subtraction, so clock
skew makes the original unconditional claim false); and — unconditionally,
clock-consistent or not — whenever no duration is computable (`received`
and `sent` events, and terminal events whose record has `started` unset)
the emitted duration is exactly `0`, never absent. -/
theorem c4_duration_nonneg_amended (e : Event) (s : Store) (m : TaskMetric)
    (hm : (task_handler e s).2 = some m) :
    (tsConsistent e s → 0 ≤ m.duration) ∧
    (noDurationCase e s → m.duration = 0) := by
  obtain ⟨ty, u?, n?, t?, h?⟩ := e
  cases u? with
  | none => simp [task_handler, taskBody] at hm
  | some u =>
    by_cases hrec : kindOf ty = "received"
    · cases n? with
      | none => simp [task_handler, taskBody, taskBranch, hrec] at hm
      | some nm =>
        cases t? with
        | none => simp [task_handler, taskBody, taskBranch, hrec] at hm
        | some ts =>
          by_cases hnm : nm = ""
          · simp [task_handler, taskBody, taskBranch, hrec, hnm] at hm
          · have heval :
                (task_handler ⟨ty, some u, some nm, some ts, h?⟩ s).2 =
                  some ⟨nm, "received", 0⟩ := by
              simp [task_handler, taskBody, taskBranch, hrec, hnm]
            obtain rfl := Option.some.inj (heval.symm.trans hm)
            exact ⟨fun _ => le_refl 0, fun _ => rfl⟩
    · by_cases hst : kindOf ty = "started"
      · cases hg : Store.get s u with
        | none =>
          simp [task_handler, taskBody, taskBranch, hrec, hst, hg] at hm
        | some r =>
          cases t? with
          | none =>
            simp [task_handler, taskBody, taskBranch, hrec, hst, hg] at hm
          | some ts =>
            by_cases hnm : r.name = ""
            · simp [task_handler, taskBody, taskBranch, hrec, hst, hg,
                hnm] at hm
            · have heval :
                  (task_handler ⟨ty, some u, n?, some ts, h?⟩ s).2 =
                    some ⟨r.name, "started", ts - r.received⟩ := by
                simp [task_handler, taskBody, taskBranch, hrec, hst, hg, hnm]
              obtain rfl := Option.some.inj (heval.symm.trans hm)
              refine ⟨?_, ?_⟩
              · intro hcons
                have hcr := hcons u ts r rfl rfl hg
                show (0 : ℤ) ≤ ts - r.received
                have := hcr.1
                omega
              · intro hnd
                simp only [noDurationCase] at hnd
                rcases hnd with h | h | ⟨hterm, _⟩
                · exact absurd h hrec
                · rw [hst] at h; exact absurd h (by decide)
                · rw [hst] at hterm; exact absurd hterm (by decide)
      · cases hg : Store.get s u with
        | none =>
          simp [task_handler, taskBody, taskBranch, hrec, hst, hg] at hm
        | some r =>
          by_cases hnm : r.name = ""
          · simp [task_handler, taskBody, taskBranch, hrec, hst, hg,
              hnm] at hm
          · by_cases hterm : kindOf ty ∈ terminalKinds
            · by_cases hst0 : r.started = 0
              · have heval :
                    (task_handler ⟨ty, some u, n?, t?, h?⟩ s).2 =
                      some ⟨r.name, kindOf ty, 0⟩ := by
                  simp [task_handler, taskBody, taskBranch, hrec, hst, hg,
                    hnm, hterm, hst0]
                obtain rfl := Option.some.inj (heval.symm.trans hm)
                exact ⟨fun _ => le_refl 0, fun _ => rfl⟩
              · cases t? with
                | none =>
                  simp [task_handler, taskBody, taskBranch, hrec, hst, hg,
                    hnm, hterm, hst0] at hm
                | some ts =>
                  have heval :
                      (task_handler ⟨ty, some u, n?, some ts, h?⟩ s).2 =
                        some ⟨r.name, kindOf ty, ts - r.started⟩ := by
                    simp [task_handler, taskBody, taskBranch, hrec, hst, hg,
                      hnm, hterm, hst0]
                  obtain rfl := Option.some.inj (heval.symm.trans hm)
                  refine ⟨?_, ?_⟩
                  · intro hcons
                    have hcr := hcons u ts r rfl rfl hg
                    show (0 : ℤ) ≤ ts - r.started
                    have := hcr.2 hst0
                    omega
                  · intro hnd
                    simp only [noDurationCase] at hnd
                    rcases hnd with h | h | ⟨_, hall⟩
                    · exact absurd h hrec
                    · rw [h] at hterm
                      exact absurd hterm (by decide)
                    · exact absurd (hall u r rfl hg) hst0
            · have heval :
                  (task_handler ⟨ty, some u, n?, t?, h?⟩ s).2 =
                    some ⟨r.name, kindOf ty, 0⟩ := by
                simp [task_handler, taskBody, taskBranch, hrec, hst, hg,
                  hnm, hterm]
              obtain rfl := Option.some.inj (heval.symm.trans hm)
              exact ⟨fun _ => le_refl 0, fun _ => rfl⟩

/-- C4 witness: `succeeded(U,3)` against the record `⟨add, 5, 0⟩` — a
clock-INCONSISTENT input (the event timestamp 3 precedes the recorded
`received` 5) whose record has `started` unset, so it is a
no-computable-duration case: the theorem applies with no side condition
and its unconditional conjunct yields the emitted duration `0`. -/
theorem c4_duration_nonneg_amended_witness :
    (tsConsistent (succeededEvent "U" 3) [("U", ⟨"add", 5, 0⟩)] →
      0 ≤ (⟨"add", "succeeded", (0 : ℤ)⟩ : TaskMetric).duration) ∧
    (noDurationCase (succeededEvent "U" 3) [("U", ⟨"add", 5, 0⟩)] →
      (⟨"add", "succeeded", (0 : ℤ)⟩ : TaskMetric).duration = 0) :=
  c4_duration_nonneg_amended (succeededEvent "U" 3) [("U", ⟨"add", 5, 0⟩)]
    ⟨"add", "succeeded", 0⟩ rfl

/-- Folding heartbeat events into the set is exactly a set union with the
distinct hostnames seen. -/
theorem recordHeartbeats_eq_union (hs : List String) :
    ∀ init : Finset String, recordHeartbeats hs init = init ∪ hs.toFinset := by
  induction hs with
  | nil => intro init; simp [recordHeartbeats]
  | cons h t ih =>
    intro init
    have hstep : recordHeartbeats (h :: t) init =
        recordHeartbeats t (insert h init) := by
      simp [recordHeartbeats, worker_heartbeat, heartbeatEvent]
    rw [hstep, ih (insert h init)]
    simp [Finset.insert_union, Finset.union_insert]

/-- C7: recording a heartbeat is idempotent — over any sequence of
heartbeat events in one cycle, the cycle's `WorkerStats` count equals the
number of DISTINCT hostnames seen, however often each one repeats. -/
theorem c7_heartbeat_idempotent (hs : List String)
    (queueCounts : List (String × ℕ)) :
    ((submitter_cycle queueCounts (recordHeartbeats hs ∅)).2.1).count =
      hs.toFinset.card := by
  simp [submitter_cycle, recordHeartbeats_eq_union]

/-- C8: one aggregation cycle with queue counters
`(default ↦ 3, priority ↦ 0)` and heartbeats `w1, w2, w1` emits
`QueueMetric(default,3)` and `QueueMetric(priority,0)` (zero-depth queues
included), emits `WorkerMetric(2)`, and leaves the heartbeat set empty. -/
theorem c8_cycle_scenario :
    submitter_cycle [("default", 3), ("priority", 0)]
        (recordHeartbeats ["w1", "w2", "w1"] ∅) =
      ([⟨"default", 3⟩, ⟨"priority", 0⟩], ⟨2⟩, (∅ : Finset String)) := by
  decide
